import Mathlib

/-!
Shallow embedding of `src/ehforwarderbot/message.py`.

Each class constructor of the source file becomes a Lean function returning
`Except PyError obj`, mirroring the Python `raise` statements.  Mutable Python
containers (`list`, `dict`) are modelled by an explicit heap of numbered object
references, so that `.copy()` (allocation of a fresh reference with the same
contents) and aliasing are observable.  The enumerations and the `EFBChat`
identity value live in `constants.py` / `chat.py`, which are not under `src/`;
those two definitions are modelled from the spec and marked as such.
-/

/-- Kinds of Python exception the message model can raise. -/
inductive PyError where
  | typeError (msg : String)
  | valueError (msg : String)
  | attributeError (attr : String)
  | notImplementedError (msg : String)
  deriving DecidableEq

/-- A Python value as the constructors see it: None, a string, an int, a bool,
or a reference to a mutable list / dict object living in the heap. -/
inductive PyVal where
  | pyNone
  | pyStr (s : String)
  | pyInt (n : Int)
  | pyBool (b : Bool)
  | listRef (r : Nat)
  | dictRef (r : Nat)
  deriving DecidableEq

/-- isinstance(v, str). -/
def PyVal.isStr : PyVal → Bool
  | PyVal.pyStr _ => true
  | _ => false

/-- isinstance(v, list). -/
def PyVal.isList : PyVal → Bool
  | PyVal.listRef _ => true
  | _ => false

/-- isinstance(v, dict). -/
def PyVal.isDict : PyVal → Bool
  | PyVal.dictRef _ => true
  | _ => false

/-- The heap of mutable Python container objects: list objects and dict objects,
addressed by their position in the respective store. -/
structure Heap where
  lists : List (List PyVal)
  dicts : List (List (String × PyVal))
  deriving DecidableEq

/-- Allocate a fresh list object (models `list()` and `xs.copy()`). -/
def Heap.allocList (h : Heap) (xs : List PyVal) : Heap × Nat :=
  ({ h with lists := h.lists ++ [xs] }, h.lists.length)

/-- Allocate a fresh dict object (models `dict()` and `d.copy()`). -/
def Heap.allocDict (h : Heap) (xs : List (String × PyVal)) : Heap × Nat :=
  ({ h with dicts := h.dicts ++ [xs] }, h.dicts.length)

/-- Contents of the list object behind a reference. -/
def Heap.getList (h : Heap) (r : Nat) : List PyVal :=
  h.lists.getD r []

/-- Contents of the dict object behind a reference. -/
def Heap.getDict (h : Heap) (r : Nat) : List (String × PyVal) :=
  h.dicts.getD r []

/-- In-place mutation of the list object behind a reference. -/
def Heap.setList (h : Heap) (r : Nat) (xs : List PyVal) : Heap :=
  { h with lists := h.lists.set r xs }

/-- In-place mutation of the dict object behind a reference. -/
def Heap.setDict (h : Heap) (r : Nat) (xs : List (String × PyVal)) : Heap :=
  { h with dicts := h.dicts.set r xs }

/-- Modelled from the spec: the chat-type tag set of `constants.py`, which is not
under `src/`.  The spec treats it as a closed set of symbolic tags; the source
references `ChatType.User` (message.py line 61) and `ChatType.Group` (line 306). -/
inductive ChatType where
  | User
  | Group
  | System
  deriving DecidableEq

/-- Modelled from the spec: the message-type tag set of `constants.py`, which is
not under `src/`.  The spec lists text, media, location, link, command and
status-update payload kinds; the source references `MsgType.Text` (line 62). -/
inductive MsgType where
  | Text
  | Link
  | Location
  | Command
  | Status
  | File
  deriving DecidableEq

/-- Modelled from the spec: the `EFBChat` identity value of `chat.py`, which is
not under `src/`.  The spec treats a chat as an opaque, already-validated value;
the message model only ever inspects its chat-type tag. -/
structure EFBChat where
  chat_type : ChatType
  deriving DecidableEq

/-- A substitution-dictionary key as the `EFBMsgTargetSubstitution` constructor
sees it: either a 2-tuple of two ints, or any other shape (not a tuple, wrong
length, or non-int components), which the key check rejects wholesale. -/
inductive SubKey where
  | pair (a b : Int)
  | other (v : PyVal)
  deriving DecidableEq

/-- A substitution-dictionary value as the constructor sees it, i.e. an arbitrary
Python object probed by `isinstance(v, EFBMsg)` and by the attribute reads
`v.is_chat` and `v.chat_type`.  `isMsgInstance` is the isinstance test (true for
`EFBMsg` and its subclasses); an attribute field of `none` models an object
without that attribute, on which the read raises `AttributeError`.  Python
objects can gain such attributes by plain assignment (`m.is_chat = False`). -/
structure SubValue where
  isMsgInstance : Bool
  is_chat : Option Bool
  chat_type : Option ChatType
  deriving DecidableEq

/-- The constructed `EFBMsgTargetSubstitution` object: the source stores the
incoming mapping itself (line 308), not a copy. -/
structure EFBMsgTargetSubstitutionObj where
  substitutions : List (SubKey × SubValue)
  deriving DecidableEq

/-- Error text of the key check (message.py lines 300-301; the source string has
no space between "less" and "than"). -/
def substIndexErr : String :=
  "Substitution index must be a tuple of 2 integers where the first one is lessthan the second one."

/-- Key check of the substitution constructor (message.py lines 298-301):
the key must be a tuple, of length 2, of two ints, with the first less than the
second; any failure raises `TypeError`. -/
def checkKey : SubKey → Except PyError Unit
  | SubKey.pair a b =>
      if a < b then Except.ok ()
      else Except.error (PyError.typeError substIndexErr)
  | SubKey.other _ => Except.error (PyError.typeError substIndexErr)

/-- Value check of the substitution constructor (message.py lines 302-307):
`isinstance(v, EFBMsg)` else `TypeError`; then the read `v.is_chat` (which
raises `AttributeError` when the object has no such attribute), and when truthy
the read `v.chat_type`, compared against `ChatType.Group`, in which case
`ValueError` is raised. -/
def checkValue (v : SubValue) : Except PyError Unit :=
  if v.isMsgInstance = false then
    Except.error (PyError.typeError "Substitution is not a message object.")
  else
    match v.is_chat with
    | none => Except.error (PyError.attributeError "is_chat")
    | some ic =>
        if ic then
          match v.chat_type with
          | none => Except.error (PyError.attributeError "chat_type")
          | some ct =>
              if ct = ChatType.Group then
                Except.error (PyError.valueError "Substitution is not a user.")
              else Except.ok ()
        else Except.ok ()

/-- One loop iteration of the substitution constructor: key check, then value
check, first failure aborting the construction. -/
def checkEntry (e : SubKey × SubValue) : Except PyError Unit :=
  match checkKey e.1 with
  | Except.error er => Except.error er
  | Except.ok _ => checkValue e.2

/-- The `for i in substitutions` loop of the substitution constructor, in the
insertion order of the dict. -/
def checkEntries : List (SubKey × SubValue) → Except PyError Unit
  | [] => Except.ok ()
  | e :: rest =>
      match checkEntry e with
      | Except.error er => Except.error er
      | Except.ok _ => checkEntries rest

/-- The `substitutions` argument: a dict (entries in insertion order) or a
non-dict value, which is rejected up front. -/
inductive SubstParam where
  | dict (entries : List (SubKey × SubValue))
  | notDict (v : PyVal)
  deriving DecidableEq

/-- EFBMsgTargetSubstitution.__init__ (message.py lines 294-308). -/
def EFBMsgTargetSubstitution.init (substitutions : SubstParam) :
    Except PyError EFBMsgTargetSubstitutionObj :=
  match substitutions with
  | SubstParam.notDict _ => Except.error (PyError.typeError "Substitutions must be a dict.")
  | SubstParam.dict entries =>
      match checkEntries entries with
      | Except.error er => Except.error er
      | Except.ok _ => Except.ok { substitutions := entries }

/-- The constructed `EFBMsgLinkAttribute` object. -/
structure EFBMsgLinkAttributeObj where
  title : String
  description : Option String
  image : Option String
  url : String
  deriving DecidableEq

/-- EFBMsgLinkAttribute.__init__ (message.py lines 101-115): `title` and `url`
default to None and only a `None` value is rejected (`ValueError`); all four
fields are then stored as given. -/
def EFBMsgLinkAttribute.init (title : Option String) (description : Option String)
    (image : Option String) (url : Option String) : Except PyError EFBMsgLinkAttributeObj :=
  match title, url with
  | some t, some u =>
      Except.ok { title := t, description := description, image := image, url := u }
  | _, _ => Except.error (PyError.valueError "Title and URL is required.")

/-- What EFBMsgCommand.__init__ stores in `self.callable`: the source (line 176)
assigns the name `callable`, which resolves to the Python builtin function of
that name, never to the `callable_name` parameter.  The second constructor is
the value the docstring and the class annotation (`callable: str`) promise. -/
inductive CallableField where
  | builtinFn
  | strName (s : String)
  deriving DecidableEq

/-- The constructed `EFBMsgCommand` object; `args` and `kwargs` are references
to the freshly copied list / dict objects in the heap. -/
structure EFBMsgCommandObj where
  name : String
  callable : CallableField
  args : Nat
  kwargs : Nat
  deriving DecidableEq

/-- EFBMsgCommand.__init__ (message.py lines 154-178): a `None` `args` / `kwargs`
is replaced by a fresh empty container; then `name`, `callable_name`, `args`,
`kwargs` are type-checked in that order (`TypeError`); on success the object
stores `name`, the builtin `callable` (source line 176), and fresh copies of
`args` and `kwargs` (lines 177-178). -/
def EFBMsgCommand.init (h : Heap) (name callable_name args kwargs : PyVal) :
    Except PyError (Heap × EFBMsgCommandObj) :=
  let pa : Heap × PyVal :=
    match args with
    | PyVal.pyNone =>
        let al := h.allocList []
        (al.1, PyVal.listRef al.2)
    | a => (h, a)
  let pk : Heap × PyVal :=
    match kwargs with
    | PyVal.pyNone =>
        let ad := pa.1.allocDict []
        (ad.1, PyVal.dictRef ad.2)
    | k => (pa.1, k)
  match name, callable_name, pa.2, pk.2 with
  | PyVal.pyStr n, PyVal.pyStr _, PyVal.listRef ra, PyVal.dictRef rk =>
      let ca := pk.1.allocList (pk.1.getList ra)
      let ck := ca.1.allocDict (ca.1.getDict rk)
      Except.ok (ck.1,
        { name := n, callable := CallableField.builtinFn, args := ca.2, kwargs := ck.2 })
  | n, c, a, _ =>
      if n.isStr = false then Except.error (PyError.typeError "name must be a string.")
      else if c.isStr = false then Except.error (PyError.typeError "callable must be a string.")
      else if a.isList = false then Except.error (PyError.typeError "args must be a list.")
      else Except.error (PyError.typeError "kwargs must be a dict.")

/-- An element of the list passed to `EFBMsgCommandAttribute`: either an
`EFBMsgCommand` instance or some other Python value. -/
inductive CmdElem where
  | command (c : EFBMsgCommandObj)
  | nonCommand (v : PyVal)
  deriving DecidableEq

/-- isinstance(e, EFBMsgCommand). -/
def CmdElem.isCommand : CmdElem → Bool
  | CmdElem.command _ => true
  | CmdElem.nonCommand _ => false

/-- The heap of mutable list-of-command objects. -/
abbrev CmdHeap := List (List CmdElem)

/-- The `commands` argument: a list object, or a non-list value. -/
inductive CommandsParam where
  | listRef (r : Nat)
  | notList (v : PyVal)
  deriving DecidableEq

/-- The constructed `EFBMsgCommandAttribute` object; `commands` is a reference
to the freshly copied list object. -/
structure EFBMsgCommandAttributeObj where
  commands : Nat
  deriving DecidableEq

/-- Error text of the commands check (message.py lines 200-201). -/
def commandsErr : String :=
  "There must be one or more commands, and all of them must be in type EFBMsgCommand."

/-- EFBMsgCommandAttribute.__init__ (message.py lines 193-202): `commands` must
be a list, non-empty, with every element an `EFBMsgCommand` (`ValueError`
otherwise); on success a copy of the list is stored (line 202). -/
def EFBMsgCommandAttribute.init (h : CmdHeap) (commands : CommandsParam) :
    Except PyError (CmdHeap × EFBMsgCommandAttributeObj) :=
  match commands with
  | CommandsParam.notList _ => Except.error (PyError.valueError commandsErr)
  | CommandsParam.listRef r =>
      if 0 < (h.getD r []).length ∧ (h.getD r []).all CmdElem.isCommand = true then
        Except.ok (h ++ [h.getD r []], { commands := h.length })
      else Except.error (PyError.valueError commandsErr)

/-- The constructed `EFBMsgLocationAttribute` object (message.py lines 129-136). -/
structure EFBMsgLocationAttributeObj where
  latitude : Float
  longitude : Float

/-- EFBMsgLocationAttribute.__init__: always succeeds, no validation. -/
def EFBMsgLocationAttribute.init (latitude longitude : Float) :
    Except PyError EFBMsgLocationAttributeObj :=
  Except.ok { latitude := latitude, longitude := longitude }

/-- The constructed `EFBMsgStatusAttribute` object (message.py lines 229-230);
the status constants are plain strings. -/
structure EFBMsgStatusAttributeObj where
  status_type : String
  deriving DecidableEq

/-- EFBMsgStatusAttribute.__init__: always succeeds, no validation. -/
def EFBMsgStatusAttribute.init (status_type : String) :
    Except PyError EFBMsgStatusAttributeObj :=
  Except.ok { status_type := status_type }

/-- The closed family of concrete attribute variants a message's `attributes`
slot can hold; the abstract base itself is never constructible, see
`EFBMsgAttribute.init`. -/
inductive EFBMsgAttribute where
  | link (l : EFBMsgLinkAttributeObj)
  | location (l : EFBMsgLocationAttributeObj)
  | command (c : EFBMsgCommandAttributeObj)
  | status (s : EFBMsgStatusAttributeObj)

/-- Body of the abstract EFBMsgAttribute.__init__ (message.py lines 80-83): it
unconditionally raises `NotImplementedError`, so no value of the abstract base
is ever produced — the result carrier is `Empty`. -/
def EFBMsgAttribute.init : Except PyError Empty :=
  Except.error (PyError.notImplementedError "Do not use the abstract class EFBMsgAttribute")

mutual
/-- A message object; the 17 constructor arguments follow the field order of
EFBMsg.__init__ (message.py lines 60-77): source, type, member, origin,
destination, target, uid, text, url, path, file (an opaque open-handle
descriptor), mime, filename, attributes, is_system, edit, vendor_specific.
`origin` and `destination` are annotated `EFBChat` in the source but are
assigned `None` by the constructor, so their runtime domain is optional. -/
inductive EFBMsg where
  | mk : ChatType → MsgType → Option EFBChat → Option EFBChat → Option EFBChat →
      Option EFBMsgTarget → Option String → String → Option String → Option String →
      Option Nat → Option String → Option String → Option EFBMsgAttribute →
      Bool → Bool → List (String × PyVal) → EFBMsg
/-- The closed family of concrete target variants a message's `target` slot can
hold; the abstract base itself is never constructible, see `EFBMsgTarget.init`. -/
inductive EFBMsgTarget where
  | targetMessage : EFBMsg → EFBMsgTarget
  | targetSubstitution : EFBMsgTargetSubstitutionObj → EFBMsgTarget
end

/-- Field `source` (message.py line 61). -/
def EFBMsg.source : EFBMsg → ChatType
  | EFBMsg.mk s _ _ _ _ _ _ _ _ _ _ _ _ _ _ _ _ => s

/-- Field `type` (message.py line 62). -/
def EFBMsg.type : EFBMsg → MsgType
  | EFBMsg.mk _ t _ _ _ _ _ _ _ _ _ _ _ _ _ _ _ => t

/-- Field `member` (message.py line 63). -/
def EFBMsg.member : EFBMsg → Option EFBChat
  | EFBMsg.mk _ _ m _ _ _ _ _ _ _ _ _ _ _ _ _ _ => m

/-- Field `origin` (message.py line 64). -/
def EFBMsg.origin : EFBMsg → Option EFBChat
  | EFBMsg.mk _ _ _ o _ _ _ _ _ _ _ _ _ _ _ _ _ => o

/-- Field `destination` (message.py line 65). -/
def EFBMsg.destination : EFBMsg → Option EFBChat
  | EFBMsg.mk _ _ _ _ d _ _ _ _ _ _ _ _ _ _ _ _ => d

/-- Field `target` (message.py line 66). -/
def EFBMsg.target : EFBMsg → Option EFBMsgTarget
  | EFBMsg.mk _ _ _ _ _ t _ _ _ _ _ _ _ _ _ _ _ => t

/-- Field `uid` (message.py line 67). -/
def EFBMsg.uid : EFBMsg → Option String
  | EFBMsg.mk _ _ _ _ _ _ u _ _ _ _ _ _ _ _ _ _ => u

/-- Field `text` (message.py line 68). -/
def EFBMsg.text : EFBMsg → String
  | EFBMsg.mk _ _ _ _ _ _ _ tx _ _ _ _ _ _ _ _ _ => tx

/-- Field `attributes` (message.py line 74). -/
def EFBMsg.attributes : EFBMsg → Option EFBMsgAttribute
  | EFBMsg.mk _ _ _ _ _ _ _ _ _ _ _ _ _ a _ _ _ => a

/-- Field `is_system` (message.py line 75). -/
def EFBMsg.is_system : EFBMsg → Bool
  | EFBMsg.mk _ _ _ _ _ _ _ _ _ _ _ _ _ _ b _ _ => b

/-- Field `edit` (message.py line 76). -/
def EFBMsg.edit : EFBMsg → Bool
  | EFBMsg.mk _ _ _ _ _ _ _ _ _ _ _ _ _ _ _ e _ => e

/-- EFBMsg.__init__ (message.py lines 60-77): default construction, assigning
`ChatType.User`, `MsgType.Text`, `None` for every optional slot, the empty text,
false flags and an empty vendor_specific dict. -/
def EFBMsg.init : EFBMsg :=
  EFBMsg.mk ChatType.User MsgType.Text none none none none none "" none none
    none none none none false false []

/-- An `EFBMsg` instance as the substitution value checks see it: it is an
`EFBMsg` instance, and EFBMsg.__init__ (lines 60-77) sets no `is_chat` and no
`chat_type` attribute, so both attribute reads raise `AttributeError`. -/
def EFBMsg.toSubValue (_m : EFBMsg) : SubValue :=
  { isMsgInstance := true, is_chat := none, chat_type := none }

/-- Modelled from the spec: an `EFBChat` identity value as the substitution
value checks see it.  A chat is a separate entity from a message, so
`isinstance(v, EFBMsg)` is false; the attribute fields are never read for a
chat value because the isinstance check fails first. -/
def EFBChat.toSubValue (c : EFBChat) : SubValue :=
  { isMsgInstance := false, is_chat := some true, chat_type := some c.chat_type }

/-- Body of the abstract EFBMsgTarget.__init__ (message.py lines 233-236): it
unconditionally raises `NotImplementedError`, so no value of the abstract base
is ever produced — the result carrier is `Empty`. -/
def EFBMsgTarget.init : Except PyError Empty :=
  Except.error (PyError.notImplementedError "Do not use the abstract class EFBMsgTarget")

/-- The constructed `EFBMsgTargetMessage` object (message.py lines 263-264). -/
structure EFBMsgTargetMessageObj where
  message : EFBMsg

/-- EFBMsgTargetMessage.__init__: always succeeds, no validation. -/
def EFBMsgTargetMessage.init (message : EFBMsg) : Except PyError EFBMsgTargetMessageObj :=
  Except.ok { message := message }

/-- A substitution value standing for an `EFBMsg` instance on which a caller has
assigned `is_chat = False` (Python objects gain attributes by assignment; the
message lifecycle itself populates fields this way).  Such an object passes
`isinstance(v, EFBMsg)` and the falsy `is_chat` short-circuits the group test. -/
def sampleMsgLike : SubValue :=
  { isMsgInstance := true, is_chat := some false, chat_type := none }

/-- A concrete well-formed command object, used to instantiate hypotheses. -/
def sampleCommand : EFBMsgCommandObj :=
  { name := "vote", callable := CallableField.builtinFn, args := 0, kwargs := 0 }

/-! Generic list-heap lemmas shared by the independence proofs. -/

/-- Lookup at the end of an extended store returns the appended object. -/
theorem getD_append_self {α : Type} (l : List α) (a d : α) :
    (l ++ [a]).getD l.length d = a := by
  rw [List.getD_eq_getElem?_getD, List.getElem?_append_right (Nat.le_refl _)]
  simp

/-- Mutation at one reference leaves lookups at a different reference unchanged. -/
theorem getD_set_ne {α : Type} (l : List α) (i j : Nat) (x d : α) (hij : i ≠ j) :
    (l.set i x).getD j d = l.getD j d := by
  rw [List.getD_eq_getElem?_getD, List.getD_eq_getElem?_getD, List.getElem?_set_ne hij]

/-- A key accepted by the key check is a pair of integers with start < end. -/
theorem checkKey_ok (k : SubKey) (h : checkKey k = Except.ok ()) :
    ∃ a b : Int, k = SubKey.pair a b ∧ a < b := by
  cases k with
  | pair a b =>
      refine ⟨a, b, rfl, ?_⟩
      by_cases hab : a < b
      · exact hab
      · simp [checkKey, hab] at h
  | other v => simp [checkKey] at h

/-- An entry accepted by one loop iteration has an accepted key. -/
theorem checkEntry_key (e : SubKey × SubValue) (h : checkEntry e = Except.ok ()) :
    checkKey e.1 = Except.ok () := by
  cases hk : checkKey e.1 with
  | error er =>
      simp only [checkEntry, hk] at h
      exact Except.noConfusion h
  | ok u => cases u; rfl

/-- Every entry of a fully accepted dict has a key that is a pair of integers
with start < end. -/
theorem checkEntries_keys (entries : List (SubKey × SubValue))
    (h : checkEntries entries = Except.ok ()) :
    ∀ e ∈ entries, ∃ a b : Int, e.1 = SubKey.pair a b ∧ a < b := by
  induction entries with
  | nil => intro e he; cases he
  | cons x rest ih =>
      intro e he
      cases hx : checkEntry x with
      | error er =>
          simp only [checkEntries, hx] at h
          exact Except.noConfusion h
      | ok u =>
          cases u
          simp only [checkEntries, hx] at h
          rcases List.mem_cons.mp he with rfl | hmem
          · exact checkKey_ok e.1 (checkEntry_key e hx)
          · exact ih h e hmem

/-! Claim theorems. -/

/-- C1: code-bug evidence.  EFBMsgCommand("vote", "do_vote") succeeds, but the
constructed value stores `CallableField.builtinFn` — the Python builtin function
`callable` assigned on source line 176 — and not the string "do_vote" given as
the callable identifier argument; indeed the stored value equals no string at
all. -/
theorem c1_command_stores_builtin_not_callable_name :
    EFBMsgCommand.init { lists := [], dicts := [] } (PyVal.pyStr "vote")
        (PyVal.pyStr "do_vote") PyVal.pyNone PyVal.pyNone
      = Except.ok ({ lists := [[], []], dicts := [[], []] },
          { name := "vote", callable := CallableField.builtinFn, args := 1, kwargs := 1 }) ∧
    ∀ s : String, (CallableField.builtinFn == CallableField.strName s) = false :=
  ⟨rfl, fun _ => rfl⟩

/-- C2: code-bug evidence.  The spec scenario `TargetSubstitution({(0,5):
user-message})` fails with AttributeError (an EFBMsg instance has no `is_chat`
attribute, yet line 305 reads it), and an individual (non-group) chat value
fails with TypeError (line 302 demands `isinstance(v, EFBMsg)`); neither the
specified success nor a ValidationError ever happens for such values. -/
theorem c2_substitution_value_check_is_broken :
    EFBMsgTargetSubstitution.init (SubstParam.dict
        [(SubKey.pair 0 5, EFBMsg.toSubValue EFBMsg.init)])
      = Except.error (PyError.attributeError "is_chat") ∧
    EFBMsgTargetSubstitution.init (SubstParam.dict
        [(SubKey.pair 0 5, EFBChat.toSubValue { chat_type := ChatType.User })])
      = Except.error (PyError.typeError "Substitution is not a message object.") :=
  ⟨rfl, rfl⟩

/-- C3 counterexample: a substitution whose only key is (-3, -1) is successfully
constructed (the value is an EFBMsg instance carrying `is_chat = False`), so an
entry with negative start is accepted, refuting the claimed invariant
`0 ≤ start`. -/
theorem c3_negative_start_accepted :
    EFBMsgTargetSubstitution.init
        (SubstParam.dict [(SubKey.pair (-3) (-1), sampleMsgLike)])
      = Except.ok { substitutions := [(SubKey.pair (-3) (-1), sampleMsgLike)] } :=
  rfl

/-- C3 amended: for every successfully constructed TargetSubstitution, each
stored key is a pair of integers with start < end; the lower bound 0 ≤ start and
the upper bound end ≤ len(text) are a documented caller contract that the
constructor does not enforce (it never sees the owning message's text). -/
theorem c3_amended_start_lt_end (p : SubstParam) (t : EFBMsgTargetSubstitutionObj)
    (h : EFBMsgTargetSubstitution.init p = Except.ok t) :
    ∀ e ∈ t.substitutions, ∃ a b : Int, e.1 = SubKey.pair a b ∧ a < b := by
  cases p with
  | notDict v => simp [EFBMsgTargetSubstitution.init] at h
  | dict entries =>
      cases hc : checkEntries entries with
      | error er =>
          simp only [EFBMsgTargetSubstitution.init, hc] at h
          exact Except.noConfusion h
      | ok u =>
          cases u
          simp only [EFBMsgTargetSubstitution.init, hc, Except.ok.injEq] at h
          subst h
          exact checkEntries_keys entries hc

/-- C3 amended, witness: the theorem applied to the concretely constructed
substitution over the single range (0, 5). -/
theorem c3_amended_start_lt_end_witness :
    ∃ a b : Int, (SubKey.pair 0 5, sampleMsgLike).1 = SubKey.pair a b ∧ a < b :=
  c3_amended_start_lt_end (SubstParam.dict [(SubKey.pair 0 5, sampleMsgLike)])
    { substitutions := [(SubKey.pair 0 5, sampleMsgLike)] } rfl
    (SubKey.pair 0 5, sampleMsgLike) (List.Mem.head _)

/-- C4 counterexample: an empty title and an empty url are accepted — only
`None` is rejected on source line 110 — so the claim that construction fails
whenever title or url is empty is false. -/
theorem c4_empty_title_and_url_accepted :
    EFBMsgLinkAttribute.init (some "") none none (some "")
      = Except.ok { title := "", description := none, image := none, url := "" } :=
  rfl

/-- C4 amended: LinkAttribute construction fails with ValidationError exactly
when title or url is absent (None); present values — empty strings included —
are accepted, and the constructed value round-trips title, url, description and
image unchanged, with description and image absent when omitted. -/
theorem c4_amended_link_roundtrip :
    (∀ (t u : String) (d i : Option String),
        EFBMsgLinkAttribute.init (some t) d i (some u)
          = Except.ok { title := t, description := d, image := i, url := u }) ∧
    (∀ (d i u : Option String),
        EFBMsgLinkAttribute.init none d i u
          = Except.error (PyError.valueError "Title and URL is required.")) ∧
    (∀ (t d i : Option String),
        EFBMsgLinkAttribute.init t d i none
          = Except.error (PyError.valueError "Title and URL is required.")) := by
  refine ⟨fun t u d i => rfl, fun d i u => rfl, fun t d i => ?_⟩
  cases t <;> rfl

/-- C5 counterexample: immediately after default construction, `origin` and
`destination` are absent (`None`, source lines 64-65), refuting the claim that
they are always present. -/
theorem c5_default_origin_destination_absent :
    EFBMsg.origin EFBMsg.init = none ∧ EFBMsg.destination EFBMsg.init = none :=
  ⟨rfl, rfl⟩

/-- C5 amended: default construction initializes `origin` and `destination` to
`None`, exactly like the documented-optional slots `member`, `target`, `uid` and
`attributes`, alongside the safe defaults (empty text, false flags); their
presence is established later by the producing back-end as a handoff convention,
not by the constructor. -/
theorem c5_amended_default_construction :
    EFBMsg.origin EFBMsg.init = none ∧ EFBMsg.destination EFBMsg.init = none ∧
    EFBMsg.member EFBMsg.init = none ∧ EFBMsg.target EFBMsg.init = none ∧
    EFBMsg.uid EFBMsg.init = none ∧ EFBMsg.attributes EFBMsg.init = none ∧
    EFBMsg.text EFBMsg.init = "" ∧ EFBMsg.is_system EFBMsg.init = false ∧
    EFBMsg.edit EFBMsg.init = false :=
  ⟨rfl, rfl, rfl, rfl, rfl, rfl, rfl, rfl, rfl⟩

/-- C6: the abstract bases cannot be instantiated — both abstract `__init__`
bodies unconditionally raise (NotImplementedError, source lines 80-83 and
233-236, the error the spec calls InstantiationError), and the `Empty` result
carrier certifies that no instance of an abstract base is ever produced. -/
theorem c6_abstract_bases_never_instantiate :
    EFBMsgAttribute.init
        = Except.error (PyError.notImplementedError
            "Do not use the abstract class EFBMsgAttribute") ∧
    EFBMsgTarget.init
        = Except.error (PyError.notImplementedError
            "Do not use the abstract class EFBMsgTarget") :=
  ⟨rfl, rfl⟩

/-- C9: a default-constructed message carries the concrete tags
`ChatType.User` for its source chat type and `MsgType.Text` for its message
type (source lines 61-62), not absent values. -/
theorem c9_default_source_user_type_text :
    EFBMsg.source EFBMsg.init = ChatType.User ∧ EFBMsg.type EFBMsg.init = MsgType.Text :=
  ⟨rfl, rfl⟩

/-- C10: TargetSubstitution construction on the empty dict succeeds with an
empty stored mapping (the per-entry loop never runs), while CommandAttribute
rejects an empty commands list with ValidationError. -/
theorem c10_empty_substitutions_accepted :
    EFBMsgTargetSubstitution.init (SubstParam.dict []) = Except.ok { substitutions := [] } ∧
    EFBMsgCommandAttribute.init [[]] (CommandsParam.listRef 0)
      = Except.error (PyError.valueError commandsErr) :=
  ⟨rfl, rfl⟩

/-- C7: for every non-empty list whose elements are all Command instances,
CommandAttribute construction succeeds and stores an independent copy — the
stored reference differs from the caller's and survives any later mutation of
the caller's list — while the empty list, a non-list, and a list containing a
non-Command element are all rejected with ValidationError. -/
theorem c7_command_attribute_copy_and_validation :
    (∀ (h : CmdHeap) (r : Nat) (xs : List CmdElem), r < h.length → h.getD r [] = xs →
        0 < xs.length → xs.all CmdElem.isCommand = true →
        EFBMsgCommandAttribute.init h (CommandsParam.listRef r)
            = Except.ok (h ++ [xs], { commands := h.length }) ∧
          h.length ≠ r ∧
          (h ++ [xs]).getD h.length [] = xs ∧
          ∀ ys : List CmdElem, ((h ++ [xs]).set r ys).getD h.length [] = xs) ∧
    (∀ (h : CmdHeap) (r : Nat), h.getD r [] = [] →
        EFBMsgCommandAttribute.init h (CommandsParam.listRef r)
          = Except.error (PyError.valueError commandsErr)) ∧
    (∀ (h : CmdHeap) (v : PyVal),
        EFBMsgCommandAttribute.init h (CommandsParam.notList v)
          = Except.error (PyError.valueError commandsErr)) ∧
    (∀ (h : CmdHeap) (r : Nat), (h.getD r []).all CmdElem.isCommand = false →
        EFBMsgCommandAttribute.init h (CommandsParam.listRef r)
          = Except.error (PyError.valueError commandsErr)) := by
  refine ⟨?_, ?_, ?_, ?_⟩
  · intro h r xs hr hxs hlen hall
    subst hxs
    refine ⟨?_, (Nat.ne_of_lt hr).symm, getD_append_self _ _ _, fun ys => ?_⟩
    · simp only [EFBMsgCommandAttribute.init]
      rw [if_pos ⟨hlen, hall⟩]
    · rw [getD_set_ne _ _ _ _ _ (Nat.ne_of_lt hr)]
      exact getD_append_self _ _ _
  · intro h r hr
    simp only [EFBMsgCommandAttribute.init]
    rw [hr]
    simp
  · intro h v
    rfl
  · intro h r hall
    simp only [EFBMsgCommandAttribute.init]
    rw [hall]
    simp

/-- C7 witness: the theorem applied to a singleton command list (success with an
independent copy), to an empty list, and to a list holding a non-Command. -/
theorem c7_command_attribute_copy_and_validation_witness :
    EFBMsgCommandAttribute.init [[CmdElem.command sampleCommand]] (CommandsParam.listRef 0)
        = Except.ok ([[CmdElem.command sampleCommand], [CmdElem.command sampleCommand]],
            { commands := 1 }) ∧
    EFBMsgCommandAttribute.init [[]] (CommandsParam.listRef 0)
        = Except.error (PyError.valueError commandsErr) ∧
    EFBMsgCommandAttribute.init [[CmdElem.nonCommand PyVal.pyNone]] (CommandsParam.listRef 0)
        = Except.error (PyError.valueError commandsErr) :=
  ⟨(c7_command_attribute_copy_and_validation.1 [[CmdElem.command sampleCommand]] 0
      [CmdElem.command sampleCommand] (by decide) rfl (by decide) (by decide)).1,
    c7_command_attribute_copy_and_validation.2.1 [[]] 0 rfl,
    c7_command_attribute_copy_and_validation.2.2.2 [[CmdElem.nonCommand PyVal.pyNone]] 0
      (by decide)⟩

/-- C8: Command construction rejects with TypeError a non-string name, a
non-string callable, a provided non-list args and a provided non-dict kwargs
(in the source's check order); for valid inputs it succeeds and stores
independent copies of args and kwargs: the stored references are fresh, hold
the caller's contents, and later mutation of the caller's containers leaves
the stored contents unchanged. -/
theorem c8_command_type_checks_and_copies :
    (∀ (h : Heap) (n c a k : PyVal), n.isStr = false →
        EFBMsgCommand.init h n c a k
          = Except.error (PyError.typeError "name must be a string.")) ∧
    (∀ (h : Heap) (n c a k : PyVal), n.isStr = true → c.isStr = false →
        EFBMsgCommand.init h n c a k
          = Except.error (PyError.typeError "callable must be a string.")) ∧
    (∀ (h : Heap) (n c a k : PyVal), n.isStr = true → c.isStr = true →
        a ≠ PyVal.pyNone → a.isList = false →
        EFBMsgCommand.init h n c a k
          = Except.error (PyError.typeError "args must be a list.")) ∧
    (∀ (h : Heap) (n c k : PyVal) (ra : Nat), n.isStr = true → c.isStr = true →
        k ≠ PyVal.pyNone → k.isDict = false →
        EFBMsgCommand.init h n c (PyVal.listRef ra) k
          = Except.error (PyError.typeError "kwargs must be a dict.")) ∧
    (∀ (h : Heap) (n c : String) (ra rk : Nat),
        ra < h.lists.length → rk < h.dicts.length →
        EFBMsgCommand.init h (PyVal.pyStr n) (PyVal.pyStr c)
              (PyVal.listRef ra) (PyVal.dictRef rk)
            = Except.ok
                ({ lists := h.lists ++ [h.getList ra], dicts := h.dicts ++ [h.getDict rk] },
                  { name := n, callable := CallableField.builtinFn,
                    args := h.lists.length, kwargs := h.dicts.length }) ∧
          h.lists.length ≠ ra ∧ h.dicts.length ≠ rk ∧
          Heap.getList
              { lists := h.lists ++ [h.getList ra], dicts := h.dicts ++ [h.getDict rk] }
              h.lists.length
            = h.getList ra ∧
          Heap.getDict
              { lists := h.lists ++ [h.getList ra], dicts := h.dicts ++ [h.getDict rk] }
              h.dicts.length
            = h.getDict rk ∧
          ∀ (ys : List PyVal) (zs : List (String × PyVal)),
            Heap.getList
                (Heap.setDict (Heap.setList
                    { lists := h.lists ++ [h.getList ra], dicts := h.dicts ++ [h.getDict rk] }
                    ra ys) rk zs)
                h.lists.length
              = h.getList ra ∧
            Heap.getDict
                (Heap.setDict (Heap.setList
                    { lists := h.lists ++ [h.getList ra], dicts := h.dicts ++ [h.getDict rk] }
                    ra ys) rk zs)
                h.dicts.length
              = h.getDict rk) := by
  refine ⟨?_, ?_, ?_, ?_, ?_⟩
  · intro h n c a k hn
    cases n with
    | pyStr s => exact absurd hn (by simp [PyVal.isStr])
    | pyNone => rfl
    | pyInt m => rfl
    | pyBool b => rfl
    | listRef r => rfl
    | dictRef r => rfl
  · intro h n c a k hn hc
    cases n with
    | pyStr s =>
        cases c with
        | pyStr s2 => exact absurd hc (by simp [PyVal.isStr])
        | pyNone => rfl
        | pyInt m => rfl
        | pyBool b => rfl
        | listRef r => rfl
        | dictRef r => rfl
    | pyNone => exact absurd hn (by simp [PyVal.isStr])
    | pyInt m => exact absurd hn (by simp [PyVal.isStr])
    | pyBool b => exact absurd hn (by simp [PyVal.isStr])
    | listRef r => exact absurd hn (by simp [PyVal.isStr])
    | dictRef r => exact absurd hn (by simp [PyVal.isStr])
  · intro h n c a k hn hc ha0 ha
    cases n with
    | pyStr s =>
        cases c with
        | pyStr s2 =>
            cases a with
            | pyNone => exact absurd rfl ha0
            | listRef r => exact absurd ha (by simp [PyVal.isList])
            | pyStr s3 => rfl
            | pyInt m => rfl
            | pyBool b => rfl
            | dictRef r => rfl
        | pyNone => exact absurd hc (by simp [PyVal.isStr])
        | pyInt m => exact absurd hc (by simp [PyVal.isStr])
        | pyBool b => exact absurd hc (by simp [PyVal.isStr])
        | listRef r => exact absurd hc (by simp [PyVal.isStr])
        | dictRef r => exact absurd hc (by simp [PyVal.isStr])
    | pyNone => exact absurd hn (by simp [PyVal.isStr])
    | pyInt m => exact absurd hn (by simp [PyVal.isStr])
    | pyBool b => exact absurd hn (by simp [PyVal.isStr])
    | listRef r => exact absurd hn (by simp [PyVal.isStr])
    | dictRef r => exact absurd hn (by simp [PyVal.isStr])
  · intro h n c k ra hn hc hk0 hk
    cases n with
    | pyStr s =>
        cases c with
        | pyStr s2 =>
            cases k with
            | pyNone => exact absurd rfl hk0
            | dictRef r => exact absurd hk (by simp [PyVal.isDict])
            | pyStr s3 => rfl
            | pyInt m => rfl
            | pyBool b => rfl
            | listRef r => rfl
        | pyNone => exact absurd hc (by simp [PyVal.isStr])
        | pyInt m => exact absurd hc (by simp [PyVal.isStr])
        | pyBool b => exact absurd hc (by simp [PyVal.isStr])
        | listRef r => exact absurd hc (by simp [PyVal.isStr])
        | dictRef r => exact absurd hc (by simp [PyVal.isStr])
    | pyNone => exact absurd hn (by simp [PyVal.isStr])
    | pyInt m => exact absurd hn (by simp [PyVal.isStr])
    | pyBool b => exact absurd hn (by simp [PyVal.isStr])
    | listRef r => exact absurd hn (by simp [PyVal.isStr])
    | dictRef r => exact absurd hn (by simp [PyVal.isStr])
  · intro h n c ra rk hra hrk
    refine ⟨rfl, (Nat.ne_of_lt hra).symm, (Nat.ne_of_lt hrk).symm, ?_, ?_, fun ys zs => ⟨?_, ?_⟩⟩
    · exact getD_append_self _ _ _
    · exact getD_append_self _ _ _
    · show ((h.lists ++ [h.getList ra]).set ra ys).getD h.lists.length [] = h.getList ra
      rw [getD_set_ne _ _ _ _ _ (Nat.ne_of_lt hra)]
      exact getD_append_self _ _ _
    · show ((h.dicts ++ [h.getDict rk]).set rk zs).getD h.dicts.length [] = h.getDict rk
      rw [getD_set_ne _ _ _ _ _ (Nat.ne_of_lt hrk)]
      exact getD_append_self _ _ _

/-- C8 witness: the theorem applied at concrete inputs — each type error fires
on a concrete bad argument, and a concrete valid call stores fresh copies. -/
theorem c8_command_type_checks_and_copies_witness :
    EFBMsgCommand.init { lists := [], dicts := [] } (PyVal.pyInt 0)
        PyVal.pyNone PyVal.pyNone PyVal.pyNone
      = Except.error (PyError.typeError "name must be a string.") ∧
    EFBMsgCommand.init { lists := [], dicts := [] } (PyVal.pyStr "a")
        (PyVal.pyInt 1) PyVal.pyNone PyVal.pyNone
      = Except.error (PyError.typeError "callable must be a string.") ∧
    EFBMsgCommand.init { lists := [], dicts := [] } (PyVal.pyStr "a")
        (PyVal.pyStr "b") (PyVal.pyInt 2) PyVal.pyNone
      = Except.error (PyError.typeError "args must be a list.") ∧
    EFBMsgCommand.init { lists := [[]], dicts := [] } (PyVal.pyStr "a")
        (PyVal.pyStr "b") (PyVal.listRef 0) (PyVal.pyInt 3)
      = Except.error (PyError.typeError "kwargs must be a dict.") ∧
    EFBMsgCommand.init { lists := [[PyVal.pyInt 7]], dicts := [[("x", PyVal.pyInt 8)]] }
        (PyVal.pyStr "a") (PyVal.pyStr "b") (PyVal.listRef 0) (PyVal.dictRef 0)
      = Except.ok
          ({ lists := [[PyVal.pyInt 7], [PyVal.pyInt 7]],
             dicts := [[("x", PyVal.pyInt 8)], [("x", PyVal.pyInt 8)]] },
           { name := "a", callable := CallableField.builtinFn, args := 1, kwargs := 1 }) :=
  ⟨c8_command_type_checks_and_copies.1 { lists := [], dicts := [] }
      (PyVal.pyInt 0) PyVal.pyNone PyVal.pyNone PyVal.pyNone rfl,
    c8_command_type_checks_and_copies.2.1 { lists := [], dicts := [] }
      (PyVal.pyStr "a") (PyVal.pyInt 1) PyVal.pyNone PyVal.pyNone rfl rfl,
    c8_command_type_checks_and_copies.2.2.1 { lists := [], dicts := [] }
      (PyVal.pyStr "a") (PyVal.pyStr "b") (PyVal.pyInt 2) PyVal.pyNone rfl rfl
      (by decide) rfl,
    c8_command_type_checks_and_copies.2.2.2.1 { lists := [[]], dicts := [] }
      (PyVal.pyStr "a") (PyVal.pyStr "b") (PyVal.pyInt 3) 0 rfl rfl (by decide) rfl,
    (c8_command_type_checks_and_copies.2.2.2.2
        { lists := [[PyVal.pyInt 7]], dicts := [[("x", PyVal.pyInt 8)]] }
        "a" "b" 0 0 (by decide) (by decide)).1⟩
